import Mathlib

/-!
# EcoMart product aggregation and identity mapping

A shallow embedding of the request handlers of `src/backend/server.js`
(`GET /api/products`, `GET /api/products/:id`, `POST /api/recommend`) and of
`fetchAllProductsAndCategories` in `src/frontend/src/components/ProductList.js`.

Every handler is a pure function of what the request carries and of what the two
data sources answer: the document store (MongoDB) and the external catalog
(DummyJSON). A source that throws or rejects is `Fetched.failed`.
-/

namespace EcoMart

/-! ## JavaScript numbers

A finite number is held as a whole count of units of `2^-1074`, the smallest positive
double: every finite double is such a count, two counts are equal exactly when the
numbers are, and the arithmetic below is integer arithmetic followed by the rounding
of IEEE 754 (to nearest, ties to even, 53 significant bits). -/

/-- The power `b ^ e`, computed in blocks of 128 so that it evaluates on large
exponents. -/
def power (b e : Nat) : Nat := (b ^ 128) ^ (e / 128) * b ^ (e % 128)

/-- Number of binary digits of a number below `2 ^ fuel`. -/
def bitLengthSmall : Nat → Nat → Nat
  | 0, _ => 0
  | fuel + 1, n => if n = 0 then 0 else bitLengthSmall fuel (n / 2) + 1

/-- Number of binary digits, counted 64 at a time. -/
def bitLengthChunks : Nat → Nat → Nat
  | 0, _ => 0
  | fuel + 1, n =>
    if n < 2 ^ 64 then bitLengthSmall 64 n else bitLengthChunks fuel (n / 2 ^ 64) + 64

/-- Number of binary digits of `n`, for `n` below `2 ^ 2560`; every count of units that
arises from a double or from the decimal digits of one is below that. -/
def bitLength (n : Nat) : Nat := bitLengthChunks 40 n

/-- Number of units in the number 1. -/
def unitsPerOne : Nat := power 2 1074

/-- The quotient `n / d` rounded to the nearest integer, a tie going to the even one. -/
def roundHalfEven (n d : Nat) : Nat :=
  let q := n / d
  let r := n % d
  if 2 * r < d then q
  else if d < 2 * r then q + 1
  else if q % 2 = 0 then q else q + 1

/-- The count of units of the double nearest to `n / d` units: the quotient is kept to
53 significant binary digits, which below `2^53` units is every whole count. -/
def roundToDouble (n d : Nat) : Nat :=
  let q := n / d
  let bits := bitLength q
  if bits ≤ 53 then roundHalfEven n d
  else roundHalfEven n (d * power 2 (bits - 53)) * power 2 (bits - 53)

/-! ## JavaScript values -/

/-- A JavaScript value as found in a JSON document or a request. `num k` is the finite
number of `k` units (`-0` is not told apart from `0`, which no handler does either). -/
inductive JsVal where
  | undefined
  | null
  | bool (b : Bool)
  | num (units : Int)
  | infinity (negative : Bool)
  | nan
  | str (s : String)
  deriving DecidableEq, Repr

/-- The number with the integer value `n`. -/
def JsVal.int (n : Int) : JsVal := .num (n * unitsPerOne)

/-- The number nearest to `n / d` units with the given sign, infinite from `2^1024` on. -/
def makeNumber (negative : Bool) (n d : Nat) : JsVal :=
  let r := roundToDouble n d
  if power 2 2098 ≤ r then .infinity negative
  else .num (if negative then -(r : Int) else (r : Int))

/-- Decimal text of an integer: its digits, after a minus sign for a negative one. The
string-encoded unified id of an external product is the decimal text of its native id
plus 1000. -/
def decimalText : Int → String
  | Int.ofNat m => Nat.repr m
  | Int.negSucc m => "-" ++ Nat.repr (m + 1)

/-! ### `Number.prototype.toString` -/

/-- The decimal exponent of a positive number below 1: `1 - j` for the least `j ≥ 1`
with `k * 10^j` at least one. -/
def smallExponent (k : Nat) : Nat → Nat → Int
  | 0, j => 1 - (j : Int)
  | fuel + 1, j =>
    if unitsPerOne ≤ k * power 10 j then 1 - (j : Int) else smallExponent k fuel (j + 1)

/-- The `n` with `10^(n-1) ≤ x < 10^n` for the positive number `x` of `k` units. -/
def decimalExponent (k : Nat) : Int :=
  if unitsPerOne ≤ k then ((Nat.repr (k / unitsPerOne)).length : Int)
  else smallExponent k 330 1

/-- The integer part of `x / 10^e` for the number `x` of `k` units. -/
def floorScaled (k : Nat) (e : Int) : Nat :=
  if 0 ≤ e then k / (unitsPerOne * power 10 e.toNat)
  else (k * power 10 (-e).toNat) / unitsPerOne

/-- Whether the decimal `s * 10^e` reads back as the number of `k` units. -/
def roundTrips (s : Nat) (e : Int) (k : Nat) : Bool :=
  if 0 ≤ e then roundToDouble (s * power 10 e.toNat * unitsPerOne) 1 == k
  else roundToDouble (s * unitsPerOne) (power 10 (-e).toNat) == k

/-- Distance between `s * 10^e` and the number of `k` units, on a scale that depends
on `e` only. -/
def distance (s : Nat) (e : Int) (k : Nat) : Nat :=
  if 0 ≤ e then ((s * power 10 e.toNat * unitsPerOne : Nat) - (k : Int)).natAbs
  else ((s * unitsPerOne : Nat) - ((k * power 10 (-e).toNat : Nat) : Int)).natAbs

/-- The digits `s` for which `s * 10^e` reads back as the number of `k` units, if there
are any: of the two integers around `x / 10^e` the one that reads back, the nearer
one when both do. -/
def pickDigits (k : Nat) (e : Int) : Option Nat :=
  let lo := floorScaled k e
  let hi := lo + 1
  match roundTrips lo e k, roundTrips hi e k with
  | true, true =>
    if distance lo e k < distance hi e k then some lo
    else if distance hi e k < distance lo e k then some hi
    else if lo % 2 = 0 then some lo else some hi
  | true, false => some lo
  | false, true => some hi
  | false, false => none

/-- The search for the shortest digits, from `len` digits upwards. The result is the
digits `s` and the exponent `n` of the language definition: `s * 10^(n - len)` reads
back as the number and `len` is least. Seventeen digits always suffice for a double. -/
def shortestFrom (k : Nat) (n0 : Int) : Nat → Nat → Nat × Int
  | 0, len => (floorScaled k (n0 - len), n0)
  | fuel + 1, len =>
    match pickDigits k (n0 - len) with
    | some s => if s = power 10 len then (power 10 (len - 1), n0 + 1) else (s, n0)
    | none => shortestFrom k n0 fuel (len + 1)

/-- The shortest digits and the decimal exponent of the positive number of `k` units. -/
def shortestDigits (k : Nat) : Nat × Int :=
  shortestFrom k (decimalExponent k) 17 1

/-- The layout of the digits `s` with exponent `n`: plain up to 21 integer digits,
with leading zeros down to `1e-6`, in exponent form otherwise. -/
def formatDigits (s : Nat) (n : Int) : String :=
  let d := (Nat.repr s).toList
  let len : Int := d.length
  if len ≤ n ∧ n ≤ 21 then String.mk (d ++ List.replicate (n - len).toNat '0')
  else if 0 < n ∧ n ≤ 21 then String.mk (d.take n.toNat ++ '.' :: d.drop n.toNat)
  else if -6 < n ∧ n ≤ 0 then String.mk ('0' :: '.' :: List.replicate (-n).toNat '0' ++ d)
  else
    let e := n - 1
    let sign := if 0 ≤ e then '+' else '-'
    let tail := 'e' :: sign :: (Nat.repr e.natAbs).toList
    if d.length = 1 then String.mk (d ++ tail)
    else String.mk (d.take 1 ++ '.' :: d.drop 1 ++ tail)

/-- Text of the finite number of `k` units, as `Number.prototype.toString` gives it. -/
def numberToString (k : Int) : String :=
  if k = 0 then "0"
  else if k < 0 then
    "-" ++ formatDigits (shortestDigits k.natAbs).1 (shortestDigits k.natAbs).2
  else formatDigits (shortestDigits k.natAbs).1 (shortestDigits k.natAbs).2

/-! ### Operations on values -/

/-- The method call `v.toString()`: it throws a TypeError on `undefined` and `null`,
which is `none` here. -/
def JsVal.toStringMethod : JsVal → Option String
  | .undefined => none
  | .null => none
  | .bool b => some (if b then "true" else "false")
  | .num k => some (numberToString k)
  | .infinity negative => some (if negative then "-Infinity" else "Infinity")
  | .nan => some "NaN"
  | .str s => some s

/-- String normalisation `String(v)`, total on every value. -/
def JsVal.asString : JsVal → String
  | .undefined => "undefined"
  | .null => "null"
  | .bool b => if b then "true" else "false"
  | .num k => numberToString k
  | .infinity negative => if negative then "-Infinity" else "Infinity"
  | .nan => "NaN"
  | .str s => s

/-- Truthiness of a value, as `||` and `&&` test it. -/
def JsVal.truthy : JsVal → Bool
  | .undefined => false
  | .null => false
  | .bool b => b
  | .num k => k != 0
  | .infinity _ => true
  | .nan => false
  | .str s => s != ""

/-- The expression `v + 1000`: the sum rounded to a double, except that a string
operand makes it a concatenation. -/
def JsVal.plus1000 : JsVal → JsVal
  | .undefined => .nan
  | .null => .int 1000
  | .bool b => .int (if b then 1001 else 1000)
  | .num k =>
    makeNumber (decide (k + 1000 * unitsPerOne < 0)) (k + 1000 * unitsPerOne).natAbs 1
  | .infinity negative => .infinity negative
  | .nan => .nan
  | .str s => .str (s ++ "1000")

/-- The expression `c || "Others"`. -/
def orOthers (c : JsVal) : JsVal :=
  if c.truthy then c else .str "Others"

/-! ## `parseInt` -/

/-- Code points that `parseInt` skips at the start of its argument: the white space
and line terminator characters of ECMAScript. -/
def isJsWhiteSpace (c : Char) : Bool :=
  let k := c.toNat
  k == 9 || k == 10 || k == 11 || k == 12 || k == 13 || k == 32 || k == 0xA0
    || k == 0x1680 || (0x2000 ≤ k && k ≤ 0x200A) || k == 0x2028 || k == 0x2029
    || k == 0x202F || k == 0x205F || k == 0x3000 || k == 0xFEFF

/-- Value of a character as a digit, up to base 16. -/
def digitValue (c : Char) : Option Nat :=
  let k := c.toNat
  if 48 ≤ k ∧ k ≤ 57 then some (k - 48)
  else if 97 ≤ k ∧ k ≤ 102 then some (k - 87)
  else if 65 ≤ k ∧ k ≤ 70 then some (k - 55)
  else none

/-- Whether a character is a digit of the given radix. -/
def isRadixDigit (radix : Nat) (c : Char) : Bool :=
  match digitValue c with
  | some d => decide (d < radix)
  | none => false

/-- Value of a run of digits in the given radix. -/
def digitsValue (radix : Nat) (z : List Char) : Nat :=
  z.foldl (fun acc c => acc * radix + (digitValue c).getD 0) 0

/-- Sign step of `parseInt`: a leading `-` or `+` is removed and `-` negates. -/
def splitSign : List Char → Int × List Char
  | '-' :: r => (-1, r)
  | '+' :: r => (1, r)
  | s => (1, s)

/-- Radix step of `parseInt` called without a radix: `0x` or `0X` selects base 16,
anything else base 10. -/
def splitRadix : List Char → Nat × List Char
  | '0' :: 'x' :: r => (16, r)
  | '0' :: 'X' :: r => (16, r)
  | s => (10, s)

/-- `parseInt(s)` with no radix argument; `none` is `NaN`. Leading white space is
skipped, then a sign, then a hexadecimal marker, and the longest run of digits is
read; whatever follows it is ignored. The result is exact here, where JavaScript
rounds integers beyond `2^53`; such values are far above every bound the handlers
compare with. -/
def parseInt (s : String) : Option Int :=
  let trimmed := s.toList.dropWhile isJsWhiteSpace
  let (sign, unsigned) := splitSign trimmed
  let (radix, body) := splitRadix unsigned
  let z := body.takeWhile (isRadixDigit radix)
  if z.isEmpty then none else some (sign * (digitsValue radix z : Int))

/-! ## Data model -/

/-- Outcome of a call to a data source: it throws or rejects, or it yields data. -/
inductive Fetched (α : Type) where
  | failed
  | ok (data : α)
  deriving DecidableEq, Repr

/-- A document of the `products` collection. `_id` is the text of the document key,
`p._id.toString()`; a missing field is `JsVal.undefined`. -/
structure LocalDoc where
  _id : String
  name : JsVal
  price : JsVal
  image : JsVal
  description : JsVal
  category : JsVal
  deriving DecidableEq, Repr

/-- A product object of the external catalog. -/
structure ExtItem where
  id : JsVal
  title : JsVal
  price : JsVal
  thumbnail : JsVal
  description : JsVal
  category : JsVal
  deriving DecidableEq, Repr

/-- Body of the external listing response: `products` is the array under
`data.products`, or `none` when that field is not an array. -/
structure ExtListing where
  products : Option (List ExtItem)
  deriving DecidableEq, Repr

/-- The unified product the backend sends. -/
structure Product where
  id : String
  name : JsVal
  price : JsVal
  image : JsVal
  description : JsVal
  category : JsVal
  isMongo : Bool
  deriving DecidableEq, Repr

/-- An entry of a purchase history. -/
structure HistoryItem where
  id : JsVal
  deriving DecidableEq, Repr

/-- What a handler sends: a product list, one product, or an error status with its
message. -/
inductive Reply where
  | products (ps : List Product)
  | product (p : Product)
  | error (status : Nat) (message : String)
  deriving DecidableEq, Repr

/-! ## `GET /api/products` -/

/-- Projection of a store document, the object literal mapped over `mongoProducts`. -/
def formatMongo (p : LocalDoc) : Product :=
  { id := p._id
    name := p.name
    price := p.price
    image := p.image
    description := p.description
    category := orOthers p.category
    isMongo := true }

/-- Projection of an external product, with id `(p.id + 1000).toString()`. -/
def formatDummy (p : ExtItem) : Product :=
  { id := p.id.plus1000.asString
    name := p.title
    price := p.price
    image := p.thumbnail
    description := p.description
    category := orOthers p.category
    isMongo := false }

/-- The filter `typeof p.id === 'number' && p.id > 0 && p.id <= 100`. -/
def validDummyId (p : ExtItem) : Bool :=
  match p.id with
  | .num k => decide (0 < k) && decide (k ≤ 100 * unitsPerOne)
  | _ => false

/-- The test `category && category !== 'All'`, giving the category to filter by. -/
def activeFilter (category : Option String) : Option String :=
  match category with
  | some c => if c != "" && c != "All" then some c else none
  | none => none

/-- Modelled from the spec: the document store's `find(filter)`, which is MongoDB and
not part of the repository. The empty filter returns every document in store order;
the filter on `category` keeps the documents whose stored category equals the given
string. -/
def storeFind (filter : Option String) (docs : List LocalDoc) : List LocalDoc :=
  match filter with
  | none => docs
  | some c => docs.filter (fun d => d.category == JsVal.str c)

/-- The external part of the listing: the valid products, projected, or nothing when
`products` is not an array. -/
def dummyProducts (listing : ExtListing) : List Product :=
  match listing.products with
  | some items => (items.filter validDummyId).map formatDummy
  | none => []

/-- The handler of `GET /api/products`. `category` is the query parameter, `store`
the content of the collection when reading it succeeds, `dummyRes` the outcome of the
external listing call. -/
def listProducts (category : Option String) (store : Fetched (List LocalDoc))
    (dummyRes : Fetched ExtListing) : Reply :=
  match store with
  | .failed => .error 500 "Failed to fetch products"
  | .ok docs =>
    let formattedMongo := (storeFind (activeFilter category) docs).map formatMongo
    match dummyRes with
    | .failed => .error 500 "Failed to fetch products"
    | .ok listing =>
      match activeFilter category with
      | some c =>
        .products (formattedMongo ++ (dummyProducts listing).filter (fun p => p.category == JsVal.str c))
      | none => .products (formattedMongo ++ dummyProducts listing)

/-! ## `GET /api/products/:id` -/

/-- A call issued to the external catalog while serving one product. -/
inductive ExtCall where
  | product (nativeId : Int)
  deriving DecidableEq, Repr

/-- What the single-product handler depends on. `objectIdValid` is
`ObjectId.isValid`, `findOne` the store lookup under the key built from the request
id, `fetchDummy` the external single-item call. -/
structure Backend where
  objectIdValid : String → Bool
  findOne : String → Fetched (Option LocalDoc)
  fetchDummy : Int → Fetched ExtItem

/-- A reply together with the external calls issued to produce it, in order. -/
structure Handled where
  reply : Reply
  calls : List ExtCall
  deriving DecidableEq, Repr

/-- The part of the single-product handler that follows the store lookup. -/
def getDummyProduct (env : Backend) (id : String) : Handled :=
  match parseInt id with
  | some numericId =>
    if numericId ≥ 1000 then
      let dummyId := numericId - 1000
      if dummyId ≤ 0 ∨ dummyId > 100 then
        ⟨.error 404 "Invalid DummyJSON Product ID", []⟩
      else
        match env.fetchDummy dummyId with
        | .failed => ⟨.error 500 "Failed to fetch product", [.product dummyId]⟩
        | .ok p =>
          ⟨.product
            { id := id
              name := p.title
              price := p.price
              image := p.thumbnail
              description := p.description
              category := orOthers p.category
              isMongo := false }, [.product dummyId]⟩
    else ⟨.error 404 "Product not found", []⟩
  | none => ⟨.error 404 "Product not found", []⟩

/-- The handler of `GET /api/products/:id`. -/
def getProduct (env : Backend) (id : String) : Handled :=
  if env.objectIdValid id then
    match env.findOne id with
    | .failed => ⟨.error 500 "Failed to fetch product", []⟩
    | .ok (some product) => ⟨.product (formatMongo product), []⟩
    | .ok none => getDummyProduct env id
  else getDummyProduct env id

/-! ## `POST /api/recommend` -/

/-- The list `history.map(item => item.id.toString())`, or `none` when one of the
calls throws. -/
def boughtIdsOf : List HistoryItem → Option (List String)
  | [] => some []
  | item :: rest =>
    match item.id.toStringMethod, boughtIdsOf rest with
    | some s, some ss => some (s :: ss)
    | _, _ => none

/-- Local products left after the exclusion. -/
def filteredMongo (boughtIds : List String) (docs : List LocalDoc) : List Product :=
  (docs.filter (fun p => !boughtIds.contains p._id)).map formatMongo

/-- External products left after the range filter and the exclusion. -/
def filteredDummy (boughtIds : List String) (items : List ExtItem) : List Product :=
  ((items.filter validDummyId).filter
    (fun p => !boughtIds.contains p.id.plus1000.asString)).map formatDummy

/-- The handler of `POST /api/recommend`. `history` is `req.body.history`, `none`
when the request has none. -/
def recommend (history : Option (List HistoryItem)) (store : Fetched (List LocalDoc))
    (dummyRes : Fetched ExtListing) : Reply :=
  match boughtIdsOf (history.getD []) with
  | none => .error 500 "Failed to fetch recommendations"
  | some boughtIds =>
    match store with
    | .failed => .error 500 "Failed to fetch recommendations"
    | .ok docs =>
      match dummyRes with
      | .failed => .error 500 "Failed to fetch recommendations"
      | .ok listing =>
        match listing.products with
        | none => .error 500 "Failed to fetch recommendations"
        | some items =>
          .products ((filteredMongo boughtIds docs ++ filteredDummy boughtIds items).take 10)

/-! ## Frontend: `fetchAllProductsAndCategories` -/

/-- A product as the frontend holds it. The id is a string for what the backend sent
and a number for what the frontend maps itself; `isMongo` is absent on the latter. -/
structure FrontProduct where
  id : JsVal
  name : JsVal
  price : JsVal
  image : JsVal
  description : JsVal
  category : JsVal
  isMongo : Option Bool
  deriving DecidableEq, Repr

/-- A backend product received as JSON and passed through
`p => (\x7b...p, category: p.category || "Others"\x7d)`. -/
def fromBackend (p : Product) : FrontProduct :=
  { id := .str p.id
    name := p.name
    price := p.price
    image := p.image
    description := p.description
    category := orOthers p.category
    isMongo := some p.isMongo }

/-- The frontend's own projection of an external product, with the numeric id
`p.id + 1000`. -/
def frontDummy (p : ExtItem) : FrontProduct :=
  { id := p.id.plus1000
    name := p.title
    price := p.price
    image := p.thumbnail
    description := p.description
    category := orOthers p.category
    isMongo := none }

/-- The list `combinedProducts` that `fetchAllProductsAndCategories` stores, or `none`
when it stores nothing because a call failed or threw. `mongoRes` is the answer of the
backend's `/api/products`, `dummyRes` the answer of the external listing. -/
def fetchAllProductsAndCategories (mongoRes : Reply) (dummyRes : Fetched ExtListing) :
    Option (List FrontProduct) :=
  match mongoRes, dummyRes with
  | .products ps, .ok listing =>
    match listing.products with
    | some items => some (ps.map fromBackend ++ items.map frontDummy)
    | none => none
  | _, _ => none

/-! ## What the contract names

Definitions written from the words of the specification, to compare the handlers
with: the projection of a store document, the external products that are listed and
the two remainders of a recommendation. -/

/-- The unified view of a store document: its key as id, its fields unchanged, the
fallback category when it has none. -/
def expectedLocal (d : LocalDoc) : Product :=
  { id := d._id
    name := d.name
    price := d.price
    image := d.image
    description := d.description
    category := if d.category.truthy then d.category else .str "Others"
    isMongo := true }

/-- Text of the number of `k` units plus 1000, for `k` not below `-1000`. -/
def unifiedIdText (k : Int) : String :=
  (makeNumber false (k + 1000 * unitsPerOne).natAbs 1).asString

/-- The unified view of an external product whose id is a number above 0 and at most
100; no view for any other id. -/
def expectedExternal (p : ExtItem) : Option Product :=
  match p.id with
  | .num k =>
    if 0 < k ∧ k ≤ 100 * unitsPerOne then
      some
        { id := unifiedIdText k
          name := p.title
          price := p.price
          image := p.thumbnail
          description := p.description
          category := if p.category.truthy then p.category else .str "Others"
          isMongo := false }
    else none
  | _ => none

/-- The external products that are listed, in source order. -/
def expectedExternals (items : List ExtItem) : List Product :=
  items.filterMap expectedExternal

/-- Store products whose id is the string form of no history id, in store order. -/
def expectedLocalRemainder (history : List HistoryItem) (docs : List LocalDoc) :
    List Product :=
  (docs.map expectedLocal).filter
    (fun q => decide (∀ item ∈ history, item.id.asString ≠ q.id))

/-- Listed external products whose id is the string form of no history id, in source
order. -/
def expectedExternalRemainder (history : List HistoryItem) (items : List ExtItem) :
    List Product :=
  (expectedExternals items).filter
    (fun q => decide (∀ item ∈ history, item.id.asString ≠ q.id))

/-! ## Sample data -/

/-- A store document with a category. -/
def mug : LocalDoc :=
  { _id := "abc123", name := .str "Mug", price := .int 10, image := .undefined,
    description := .undefined, category := .str "Kitchen" }

/-- A store document with no category field. -/
def plainDoc : LocalDoc :=
  { _id := "64b7f3a2c1d4e5f6a7b8c9d0", name := .str "Lamp", price := .int 25,
    image := .undefined, description := .undefined, category := .undefined }

/-- The external product with native id 5. -/
def shirt : ExtItem :=
  { id := .int 5, title := .str "Shirt", price := .int 20, thumbnail := .undefined,
    description := .undefined, category := .str "Clothing" }

/-- The external product with native id 7. -/
def watch : ExtItem :=
  { id := .int 7, title := .str "Watch", price := .int 90, thumbnail := .undefined,
    description := .undefined, category := .str "Accessories" }

/-- An external product with native id 9 and no category field. -/
def bareItem : ExtItem :=
  { id := .int 9, title := .str "Rope", price := .int 3, thumbnail := .undefined,
    description := .undefined, category := .undefined }

/-- An external product with the native id 5.5, which is 11 times `2^1073` units. -/
def halfItem : ExtItem :=
  { id := .num (11 * power 2 1073), title := .str "Half", price := .int 1,
    thumbnail := .undefined, description := .undefined, category := .str "Odd" }

/-- An external product with the native id `5 + 2^-50`, the double that the literal
`5.000000000000001` denotes. -/
def nearShirt : ExtItem :=
  { id := .num (5 * unitsPerOne + power 2 1024), title := .str "Blouse", price := .int 21,
    thumbnail := .undefined, description := .undefined, category := .str "Clothing" }

/-- A backend whose store holds no document under any requested key and whose external
catalog serves `shirt` under native id 5 only. -/
def sampleBackend : Backend :=
  { objectIdValid := fun _ => false
    findOne := fun _ => .ok none
    fetchDummy := fun n => if n = 5 then .ok shirt else .failed }

/-- A purchase history naming one store product by its key and one external product by
its numeric unified id. -/
def sampleHistory : List HistoryItem :=
  [⟨.str "abc123"⟩, ⟨.int 1005⟩]

/-! ## Lemmas -/

/-- The block power is the power. -/
theorem power_eq (b e : Nat) : power b e = b ^ e := by
  unfold power
  rw [← pow_mul, ← pow_add, Nat.div_add_mod]

/-- There is at least one unit in the number 1. -/
theorem unitsPerOne_pos : (0 : Int) < (unitsPerOne : Int) := by
  decide

/-- An integer from 1 to 100 plus 1000 has the decimal text of the sum as its text. -/
theorem int_plus1000_text (n : Int) (h1 : 1 ≤ n) (h100 : n ≤ 100) :
    (JsVal.int n).plus1000.asString = decimalText (n + 1000) := by
  interval_cases n <;> rfl

/-- The decimal text of a unified external id parses back to the same number. -/
theorem parseInt_unified (n : Int) (h1 : 1 ≤ n) (h100 : n ≤ 100) :
    parseInt (decimalText (n + 1000)) = some (n + 1000) := by
  interval_cases n <;> rfl

/-- The listing filter keeps exactly the items whose id is a number above 0 and at
most 100. -/
theorem validDummyId_iff (p : ExtItem) :
    validDummyId p = true ↔ ∃ k : Int, p.id = .num k ∧ 0 < k ∧ k ≤ 100 * unitsPerOne := by
  unfold validDummyId
  cases hid : p.id <;> simp

/-- An item with an integer id is kept exactly when the integer is from 1 to 100. -/
theorem validDummyId_int (p : ExtItem) (n : Int) (hp : p.id = .int n) :
    validDummyId p = true ↔ 1 ≤ n ∧ n ≤ 100 := by
  have hU := unitsPerOne_pos
  rw [validDummyId_iff]
  constructor
  · rintro ⟨k, hk, h0, h100⟩
    rw [hp] at hk
    have hkn : n * unitsPerOne = k := by
      simpa [JsVal.int] using hk
    subst hkn
    constructor
    · have hn : 0 < n := (mul_pos_iff_of_pos_right hU).1 h0
      omega
    · exact le_of_mul_le_mul_right h100 hU
  · rintro ⟨h1, h100⟩
    refine ⟨n * unitsPerOne, hp, ?_, ?_⟩
    · exact mul_pos (by omega) hU
    · exact mul_le_mul_of_nonneg_right h100 (le_of_lt hU)

/-- The id given to an external product with an integer native id from 1 to 100. -/
theorem formatDummy_id (p : ExtItem) (n : Int) (hp : p.id = .int n) (h1 : 1 ≤ n)
    (h100 : n ≤ 100) : (formatDummy p).id = decimalText (n + 1000) := by
  simp only [formatDummy, hp]
  exact int_plus1000_text n h1 h100

/-- The text of a positive number plus 1000, as the listing computes it. -/
theorem plus1000_text (k : Int) (hk : 0 < k) :
    (JsVal.num k).plus1000.asString = unifiedIdText k := by
  have hU := unitsPerOne_pos
  have hneg : ¬ (k + 1000 * (unitsPerOne : Int) < 0) := by
    have : (0 : Int) ≤ 1000 * (unitsPerOne : Int) := by positivity
    omega
  simp [JsVal.plus1000, unifiedIdText, hneg]

/-- An item that the listing filter keeps has the expected view. -/
theorem expectedExternal_of_valid (p : ExtItem) (h : validDummyId p = true) :
    expectedExternal p = some (formatDummy p) := by
  obtain ⟨k, hk, h0, h100⟩ := (validDummyId_iff p).1 h
  simp only [expectedExternal, hk, h0, h100, and_self, if_true, formatDummy, orOthers]
  rw [plus1000_text k h0]

/-- An item that the listing filter drops has no view. -/
theorem expectedExternal_of_invalid (p : ExtItem) (h : validDummyId p = false) :
    expectedExternal p = none := by
  unfold expectedExternal
  cases hid : p.id with
  | num k =>
    have hnot : ¬ (0 < k ∧ k ≤ 100 * (unitsPerOne : Int)) := by
      intro hr
      have := (validDummyId_iff p).2 ⟨k, hid, hr.1, hr.2⟩
      rw [h] at this
      exact Bool.noConfusion this
    simp [hnot]
  | _ => rfl

/-- The external part of a listing is the list of expected views. -/
theorem valid_map_eq_expected (items : List ExtItem) :
    (items.filter validDummyId).map formatDummy = expectedExternals items := by
  induction items with
  | nil => rfl
  | cons p rest ih =>
    unfold expectedExternals at ih ⊢
    cases hv : validDummyId p with
    | true =>
      rw [List.filter_cons_of_pos hv, List.map_cons,
        List.filterMap_cons_some (expectedExternal_of_valid p hv), ih]
    | false =>
      rw [List.filter_cons_of_neg (by simp [hv]),
        List.filterMap_cons_none (expectedExternal_of_invalid p hv), ih]

/-- The store part of a listing is the list of expected views. -/
theorem formatMongo_eq_expected (d : LocalDoc) : formatMongo d = expectedLocal d := rfl

/-- When the store has nothing under the requested key, the handler continues with the
external decode. -/
theorem getProduct_no_local (env : Backend) (id : String)
    (hlocal : env.objectIdValid id = true → env.findOne id = .ok none) :
    getProduct env id = getDummyProduct env id := by
  unfold getProduct
  by_cases hv : env.objectIdValid id = true
  · simp [hv, hlocal hv]
  · simp [hv]

/-- The sentinel `All` selects no filter. -/
theorem activeFilter_all : activeFilter (some "All") = none := by
  decide

/-- In a list of store products followed by external products, no external product
comes before a store product. -/
theorem pairwise_local_first (xs ys : List Product)
    (hx : ∀ a ∈ xs, a.isMongo = true) (hy : ∀ b ∈ ys, b.isMongo = false) :
    (xs ++ ys).Pairwise (fun a b => a.isMongo = false → b.isMongo = false) := by
  rw [List.pairwise_append]
  refine ⟨?_, ?_, ?_⟩
  · exact List.pairwise_of_forall_mem_list (fun a ha _ _ h => by simp [hx a ha] at h)
  · exact List.pairwise_of_forall_mem_list (fun _ _ b hb _ => hy b hb)
  · intro a _ b hb _
    exact hy b hb

/-- Every expected view of an external product is flagged as external. -/
theorem expectedExternals_isMongo (items : List ExtItem) :
    ∀ b ∈ expectedExternals items, b.isMongo = false := by
  intro b hb
  rw [← valid_map_eq_expected] at hb
  obtain ⟨q, _, rfl⟩ := List.mem_map.1 hb
  rfl

/-- Every expected view of a store document is flagged as a store product. -/
theorem expectedLocal_isMongo (docs : List LocalDoc) :
    ∀ a ∈ docs.map expectedLocal, a.isMongo = true := by
  intro a ha
  obtain ⟨d, _, rfl⟩ := List.mem_map.1 ha
  rfl

/-- Where `toString()` returns, it returns the string normalisation. -/
theorem toStringMethod_eq (v : JsVal) (s : String) (h : v.toStringMethod = some s) :
    v.asString = s := by
  cases v <;> simp_all [JsVal.toStringMethod, JsVal.asString]

/-- On every value but `undefined` and `null`, `toString()` returns. -/
theorem toStringMethod_of_defined (v : JsVal) (hu : v ≠ .undefined) (hn : v ≠ .null) :
    v.toStringMethod = some v.asString := by
  cases v <;> simp_all [JsVal.toStringMethod, JsVal.asString]

/-- When the bought ids can be computed they are the string forms of the history ids. -/
theorem boughtIdsOf_some (l : List HistoryItem) (b : List String)
    (h : boughtIdsOf l = some b) : b = l.map (fun item => item.id.asString) := by
  induction l generalizing b with
  | nil => simpa [boughtIdsOf] using h.symm
  | cons item rest ih =>
    unfold boughtIdsOf at h
    cases hs : item.id.toStringMethod with
    | none => simp [hs] at h
    | some s =>
      cases hr : boughtIdsOf rest with
      | none => simp [hs, hr] at h
      | some ss =>
        simp [hs, hr] at h
        subst h
        simp [toStringMethod_eq _ _ hs, ih ss hr]

/-- A history none of whose ids is `undefined` or `null` always yields its bought ids. -/
theorem boughtIdsOf_of_defined (l : List HistoryItem)
    (h : ∀ item ∈ l, item.id ≠ .undefined ∧ item.id ≠ .null) :
    boughtIdsOf l = some (l.map (fun item => item.id.asString)) := by
  induction l with
  | nil => rfl
  | cons item rest ih =>
    have hrest := ih (fun x hx => h x (List.mem_cons_of_mem _ hx))
    have hitem := h item (List.mem_cons_self _ _)
    unfold boughtIdsOf
    simp [toStringMethod_of_defined _ hitem.1 hitem.2, hrest]

/-- Not being among the string forms of the history ids, as the handler tests it and as
the contract words it. -/
theorem not_contains_eq (history : List HistoryItem) (t : String) :
    (!(history.map (fun item => item.id.asString)).contains t)
      = decide (∀ item ∈ history, item.id.asString ≠ t) := by
  by_cases hex : ∃ a ∈ history, a.id.asString = t
  · simp [hex]
  · simp [hex]
    exact fun item hitem heq => hex ⟨item, hitem, heq⟩

/-- The store part of a recommendation is the expected local remainder. -/
theorem filteredMongo_eq (history : List HistoryItem) (docs : List LocalDoc) :
    filteredMongo (history.map (fun item => item.id.asString)) docs
      = expectedLocalRemainder history docs := by
  unfold filteredMongo expectedLocalRemainder
  rw [List.filter_map]
  have hf : formatMongo = expectedLocal := rfl
  rw [hf]
  congr 1
  apply List.filter_congr
  intro d _
  exact not_contains_eq history d._id

/-- The external part of a recommendation is the expected external remainder. -/
theorem filteredDummy_eq (history : List HistoryItem) (items : List ExtItem) :
    filteredDummy (history.map (fun item => item.id.asString)) items
      = expectedExternalRemainder history items := by
  unfold filteredDummy expectedExternalRemainder
  rw [← valid_map_eq_expected, List.filter_map]
  congr 1
  apply List.filter_congr
  intro d _
  exact not_contains_eq history d.id.plus1000.asString

/-- Every product of the expected local remainder is a store product. -/
theorem expectedLocalRemainder_isMongo (history : List HistoryItem) (docs : List LocalDoc) :
    ∀ a ∈ expectedLocalRemainder history docs, a.isMongo = true :=
  fun a ha => expectedLocal_isMongo docs a (List.mem_filter.1 ha).1

/-- Every product of the expected external remainder is an external product. -/
theorem expectedExternalRemainder_isMongo (history : List HistoryItem)
    (items : List ExtItem) :
    ∀ b ∈ expectedExternalRemainder history items, b.isMongo = false :=
  fun b hb => expectedExternals_isMongo items b (List.mem_filter.1 hb).1

/-- A listed item whose id is an integer when in range has an integer id from 1 to
100. -/
theorem valid_integer_id (p : ExtItem) (hv : validDummyId p = true)
    (hint : ∀ k : Int, p.id = .num k → 0 < k → k ≤ 100 * unitsPerOne →
      ∃ n : Int, k = n * unitsPerOne) :
    ∃ n : Int, p.id = .int n ∧ 1 ≤ n ∧ n ≤ 100 := by
  obtain ⟨k, hk, h0, h100⟩ := (validDummyId_iff p).1 hv
  obtain ⟨n, hn⟩ := hint k hk h0 h100
  have hp : p.id = .int n := by rw [hk, hn]; rfl
  exact ⟨n, hp, (validDummyId_int p n hp).1 hv⟩

/-- External listings with pairwise distinct native ids, integers when in range, give
pairwise distinct unified ids. -/
theorem dummy_ids_nodup (items : List ExtItem) (h : (items.map (fun p => p.id)).Nodup)
    (hint : ∀ p ∈ items, ∀ k : Int, p.id = .num k → 0 < k → k ≤ 100 * unitsPerOne →
      ∃ n : Int, k = n * unitsPerOne) :
    (((items.filter validDummyId).map formatDummy).map (fun q => q.id)).Nodup := by
  rw [List.map_map]
  apply List.Nodup.map_on
  · intro x hx y hy hxy
    have hxv := (List.mem_filter.1 hx)
    have hyv := (List.mem_filter.1 hy)
    obtain ⟨n, hn, hn1, hn100⟩ := valid_integer_id x hxv.2 (hint x hxv.1)
    obtain ⟨m, hm, hm1, hm100⟩ := valid_integer_id y hyv.2 (hint y hyv.1)
    have hs : decimalText (n + 1000) = decimalText (m + 1000) := by
      have := hxy
      simp only [Function.comp] at this
      rwa [formatDummy_id x n hn hn1 hn100, formatDummy_id y m hm hm1 hm100] at this
    have hp : some (n + 1000) = some (m + 1000) := by
      rw [← parseInt_unified n hn1 hn100, ← parseInt_unified m hm1 hm100, hs]
    have hnm : n = m := by
      have := Option.some.inj hp
      omega
    exact List.inj_on_of_nodup_map h hxv.1 hyv.1 (by rw [hn, hm, hnm])
  · exact (List.Nodup.of_map _ h).filter _

/-- The ids of the sample history are defined. -/
theorem sampleHistory_defined :
    ∀ item ∈ sampleHistory, item.id ≠ .undefined ∧ item.id ≠ .null := by
  decide

/-- The store answers a filtered read with a sublist of its documents. -/
theorem storeFind_sublist (filter : Option String) (docs : List LocalDoc) :
    (storeFind filter docs).Sublist docs := by
  cases filter with
  | none => exact List.Sublist.refl _
  | some c => exact List.filter_sublist _

/-- The unified ids of the external part of a listing are pairwise distinct when the
native ids are, and are integers when in range. -/
theorem dummyProducts_ids_nodup (listing : ExtListing)
    (h : ((listing.products.getD []).map (fun p => p.id)).Nodup)
    (hint : ∀ p ∈ listing.products.getD [], ∀ k : Int, p.id = .num k → 0 < k →
      k ≤ 100 * unitsPerOne → ∃ n : Int, k = n * unitsPerOne) :
    ((dummyProducts listing).map (fun q => q.id)).Nodup := by
  unfold dummyProducts
  cases hl : listing.products with
  | none => simp
  | some items =>
    rw [hl] at h hint
    exact dummy_ids_nodup items h hint

/-- When the in-range ids are integers, every id of the external part of a listing is
the decimal text of a number from 1001 to 1100. -/
theorem dummyProducts_id_range (listing : ExtListing)
    (hint : ∀ p ∈ listing.products.getD [], ∀ k : Int, p.id = .num k → 0 < k →
      k ≤ 100 * unitsPerOne → ∃ n : Int, k = n * unitsPerOne) :
    ∀ q ∈ dummyProducts listing, ∃ m : Int, 1001 ≤ m ∧ m ≤ 1100 ∧ q.id = decimalText m := by
  intro q hq
  unfold dummyProducts at hq
  cases hl : listing.products with
  | none => simp [hl] at hq
  | some items =>
    rw [hl] at hq hint
    obtain ⟨p, hp, rfl⟩ := List.mem_map.1 hq
    have hpf := List.mem_filter.1 hp
    obtain ⟨n, hn, h1, h100⟩ := valid_integer_id p hpf.2 (hint p hpf.1)
    exact ⟨n + 1000, by omega, by omega, formatDummy_id p n hn h1 h100⟩

/-- The keys of the sample documents are not the text of a unified external id. -/
theorem sample_keys_free :
    ∀ d ∈ [mug, plainDoc], ∀ m : Int, 1001 ≤ m → m ≤ 1100 → d._id ≠ decimalText m := by
  intro d hd m h1 h2 heq
  have hparse := parseInt_unified (m - 1000) (by omega) (by omega)
  rw [show m - 1000 + 1000 = m by omega, ← heq] at hparse
  simp only [List.mem_cons, List.mem_singleton, List.not_mem_nil, or_false] at hd
  rcases hd with rfl | rfl
  · have hmug : parseInt mug._id = none := by rfl
    rw [hmug] at hparse
    exact Option.noConfusion hparse
  · have h64 : parseInt plainDoc._id = some 64 := by rfl
    rw [h64] at hparse
    have := Option.some.inj hparse
    omega

/-- The in-range ids of the sample external products are integers. -/
theorem sample_ids_integer :
    ∀ p ∈ [shirt, watch], ∀ k : Int, p.id = .num k → 0 < k → k ≤ 100 * unitsPerOne →
      ∃ n : Int, k = n * unitsPerOne := by
  intro p hp k hk _ _
  simp only [List.mem_cons, List.mem_singleton, List.not_mem_nil, or_false] at hp
  rcases hp with rfl | rfl
  · exact ⟨5, (JsVal.num.inj hk).symm⟩
  · exact ⟨7, (JsVal.num.inj hk).symm⟩

/-- The native id 5.5 is not an integer. -/
theorem halfItem_not_integer : ¬ ∃ n : Int, halfItem.id = JsVal.int n := by
  rintro ⟨n, h⟩
  have h2 : (11 * (power 2 1073 : Nat) : Int) = n * (unitsPerOne : Nat) := JsVal.num.inj h
  have hU : ((unitsPerOne : Nat) : Int) = 2 * ((power 2 1073 : Nat) : Int) := by decide
  have hH : (0 : Int) < ((power 2 1073 : Nat) : Int) := by decide
  rw [hU] at h2
  generalize ((power 2 1073 : Nat) : Int) = H at h2 hH
  have h3 : 11 * H = (2 * n) * H := by rw [h2]; ring
  have h4 := mul_right_cancel₀ (ne_of_gt hH) h3
  omega

/-- For a category other than the fallback, filtering the store by the stored category
and filtering the projections by the returned category select the same documents. -/
theorem stored_category_iff (d : LocalDoc) (c : String) (hc : c ≠ "") (ho : c ≠ "Others") :
    (d.category == JsVal.str c) = ((formatMongo d).category == JsVal.str c) := by
  simp only [formatMongo, orOthers]
  cases hcat : d.category with
  | undefined => simp [JsVal.truthy, Ne.symm ho]
  | null => simp [JsVal.truthy, Ne.symm ho]
  | nan => simp [JsVal.truthy, Ne.symm ho]
  | infinity s => simp [JsVal.truthy]
  | bool b => cases b <;> simp [JsVal.truthy, Ne.symm ho]
  | num n =>
    by_cases hn : n = 0
    · simp [JsVal.truthy, hn, Ne.symm ho]
    · simp [JsVal.truthy, hn]
  | str s =>
    by_cases hs : s = ""
    · subst hs
      simp [JsVal.truthy, Ne.symm hc, Ne.symm ho]
    · simp [JsVal.truthy, hs]

/-- Away from the fallback category, the filtered listing is the unfiltered listing
restricted to the products whose returned category is the requested one. -/
theorem listProducts_category_restricts (c : String) (hc : c ≠ "") (ha : c ≠ "All")
    (ho : c ≠ "Others") (docs : List LocalDoc) (listing : ExtListing) :
    listProducts (some c) (.ok docs) (.ok listing)
      = .products ((docs.map formatMongo ++ dummyProducts listing).filter
          (fun q => q.category == JsVal.str c)) := by
  have hf : activeFilter (some c) = some c := by simp [activeFilter, hc, ha]
  simp only [listProducts, hf, storeFind, List.filter_append, List.filter_map]
  congr 3
  apply List.filter_congr
  intro d _
  simpa using stored_category_iff d c hc ho

/-! ## Claims -/

/-- C1: for an external native id `n` from 1 to 100, the listing gives the product the
id that is the decimal text of `n + 1000`; the single-product handler, asked for that
text when the store has no document under it, parses it back to `n + 1000`, passes the
range check and issues exactly one external fetch, for native id `n`. -/
theorem external_id_round_trip (n : Int) (h1 : 1 ≤ n) (h100 : n ≤ 100)
    (p : ExtItem) (hp : p.id = .int n) (env : Backend)
    (hlocal : env.objectIdValid (decimalText (n + 1000)) = true →
      env.findOne (decimalText (n + 1000)) = .ok none) :
    (formatDummy p).id = decimalText (n + 1000)
    ∧ (∀ docs items, p ∈ items →
        listProducts none (.ok docs) (.ok ⟨some items⟩)
            = .products (docs.map formatMongo ++ (items.filter validDummyId).map formatDummy)
          ∧ formatDummy p ∈ (items.filter validDummyId).map formatDummy)
    ∧ parseInt (decimalText (n + 1000)) = some (n + 1000)
    ∧ (n + 1000) - 1000 = n
    ∧ (getProduct env (decimalText (n + 1000))).calls = [ExtCall.product n]
    ∧ getProduct env (decimalText (n + 1000)) =
        (match env.fetchDummy n with
         | .failed => ⟨.error 500 "Failed to fetch product", [ExtCall.product n]⟩
         | .ok q =>
           ⟨.product
             { id := decimalText (n + 1000)
               name := q.title
               price := q.price
               image := q.thumbnail
               description := q.description
               category := orOthers q.category
               isMongo := false }, [ExtCall.product n]⟩) := by
  have hparse := parseInt_unified n h1 h100
  have hvalid : validDummyId p = true := (validDummyId_int p n hp).2 ⟨h1, h100⟩
  have hget : getProduct env (decimalText (n + 1000)) =
      (match env.fetchDummy n with
       | .failed => ⟨.error 500 "Failed to fetch product", [ExtCall.product n]⟩
       | .ok q =>
         ⟨.product
           { id := decimalText (n + 1000)
             name := q.title
             price := q.price
             image := q.thumbnail
             description := q.description
             category := orOthers q.category
             isMongo := false }, [ExtCall.product n]⟩) := by
    rw [getProduct_no_local env _ hlocal]
    unfold getDummyProduct
    rw [hparse]
    have hge : n + 1000 ≥ 1000 := by omega
    have hrange : ¬ (n ≤ 0 ∨ n > 100) := by omega
    have hsub : n + 1000 - 1000 = n := by omega
    simp only [hge, if_true, hsub, hrange, if_false]
  refine ⟨formatDummy_id p n hp h1 h100, ?_, hparse, by omega, ?_, hget⟩
  · intro docs items hmem
    refine ⟨?_, ?_⟩
    · simp [listProducts, activeFilter, storeFind, dummyProducts]
    · exact List.mem_map.2 ⟨p, List.mem_filter.2 ⟨hmem, hvalid⟩, rfl⟩
  · rw [hget]
    cases env.fetchDummy n <;> rfl

/-- Witness of C1 at native id 5: the product `shirt`, listed as `1005`. -/
theorem external_id_round_trip_witness :
    (formatDummy shirt).id = "1005"
    ∧ parseInt "1005" = some 1005
    ∧ (getProduct sampleBackend "1005").calls = [ExtCall.product 5] := by
  have h := external_id_round_trip 5 (by decide) (by decide) shirt rfl sampleBackend
    (fun hv => by simp [sampleBackend] at hv)
  exact ⟨h.1, h.2.2.1, h.2.2.2.2.1⟩

/-- C2: when the store has no document under the requested id and the integer `u` that
the id parses to is below 1000, or is at least 1000 with `u - 1000` at most 0 or above
100, the handler answers 404 and issues no external call. -/
theorem getProduct_out_of_range_not_found (env : Backend) (id : String) (u : Int)
    (hlocal : env.objectIdValid id = true → env.findOne id = .ok none)
    (hu : parseInt id = some u)
    (hr : u < 1000 ∨ (u ≥ 1000 ∧ (u - 1000 ≤ 0 ∨ u - 1000 > 100))) :
    (∃ msg, (getProduct env id).reply = .error 404 msg) ∧ (getProduct env id).calls = [] := by
  rw [getProduct_no_local env id hlocal]
  unfold getDummyProduct
  rw [hu]
  by_cases hge : u ≥ 1000
  · have hout : u - 1000 ≤ 0 ∨ u - 1000 > 100 := by
      rcases hr with h | h
      · omega
      · exact h.2
    simp only [hge, if_true, hout]
    exact ⟨⟨_, rfl⟩, trivial⟩
  · simp only [hge, if_false]
    exact ⟨⟨_, rfl⟩, trivial⟩

/-- Witness of C2 at the request id `1101`, which decodes to native id 101. -/
theorem getProduct_out_of_range_not_found_witness :
    parseInt "1101" = some 1101
    ∧ (∃ msg, (getProduct sampleBackend "1101").reply = .error 404 msg)
    ∧ (getProduct sampleBackend "1101").calls = [] :=
  ⟨rfl, getProduct_out_of_range_not_found sampleBackend "1101" 1101
    (fun hv => by simp [sampleBackend] at hv) rfl (by decide)⟩

/-- C3, as stated, fails: an external product whose native id is 5.5, not an integer,
is listed, under the id `1005.5`. -/
theorem listProducts_keeps_fractional_id :
    listProducts none (.ok []) (.ok ⟨some [halfItem]⟩)
        = .products
            [{ id := "1005.5", name := .str "Half", price := .int 1, image := .undefined,
               description := .undefined, category := .str "Odd", isMongo := false }]
    ∧ ¬ ∃ n : Int, halfItem.id = JsVal.int n :=
  ⟨by rfl, halfItem_not_integer⟩

/-- C3, amended: with no category filter the listing is the views of all store documents
in store order followed by the views of the external products whose id is a number above
0 and at most 100, integer or not, in source order, each with the text of its native id
plus 1000 as id, which for an integer native id is the decimal text of the sum; no
external product precedes a store product; and the category `All` gives the same answer
as an absent category. -/
theorem listProducts_local_then_external (docs : List LocalDoc) (listing : ExtListing) :
    listProducts none (.ok docs) (.ok listing)
        = .products (docs.map expectedLocal
            ++ expectedExternals (listing.products.getD []))
    ∧ (∀ n : Int, 1 ≤ n → n ≤ 100 →
        unifiedIdText (n * unitsPerOne) = decimalText (n + 1000))
    ∧ (docs.map expectedLocal ++ expectedExternals (listing.products.getD [])).Pairwise
          (fun a b => a.isMongo = false → b.isMongo = false)
    ∧ (∀ store dummyRes,
        listProducts (some "All") store dummyRes = listProducts none store dummyRes)
    ∧ listProducts none (.ok [mug]) (.ok ⟨some [shirt]⟩)
        = .products
            [{ id := "abc123", name := .str "Mug", price := .int 10, image := .undefined,
               description := .undefined, category := .str "Kitchen", isMongo := true },
             { id := "1005", name := .str "Shirt", price := .int 20, image := .undefined,
               description := .undefined, category := .str "Clothing", isMongo := false }] := by
  refine ⟨?_, ?_, ?_, ?_, by rfl⟩
  · have hf : formatMongo = expectedLocal := rfl
    cases hl : listing.products with
    | none => simp [listProducts, activeFilter, storeFind, dummyProducts, hl, hf, expectedExternals]
    | some items =>
      simp only [listProducts, activeFilter, storeFind, dummyProducts, hl, hf,
        valid_map_eq_expected, Option.getD_some]
  · intro n h1 h100
    have hpos : (0 : Int) < n * unitsPerOne := mul_pos (by omega) unitsPerOne_pos
    rw [← plus1000_text _ hpos]
    exact int_plus1000_text n h1 h100
  · exact pairwise_local_first _ _ (expectedLocal_isMongo docs) (expectedExternals_isMongo _)
  · intro store dummyRes
    simp [listProducts, activeFilter_all]
    rfl

/-- C4: whatever the history, the store content and the external listing, no product
that the recommendation returns has an id equal to the string form of the id of a
history item. -/
theorem recommend_excludes_history (history : Option (List HistoryItem))
    (store : Fetched (List LocalDoc)) (dummyRes : Fetched ExtListing) (ps : List Product)
    (h : recommend history store dummyRes = .products ps) :
    ∀ p ∈ ps, ∀ item ∈ history.getD [], p.id ≠ item.id.asString := by
  unfold recommend at h
  cases hb : boughtIdsOf (history.getD []) with
  | none => simp [hb] at h
  | some b =>
    have hbe := boughtIdsOf_some _ _ hb
    subst hbe
    cases store with
    | failed => simp [hb] at h
    | ok docs =>
      cases dummyRes with
      | failed => simp [hb] at h
      | ok listing =>
        cases hl : listing.products with
        | none => simp [hb, hl] at h
        | some items =>
          simp only [hb, hl, Reply.products.injEq] at h
          rw [filteredMongo_eq, filteredDummy_eq] at h
          subst h
          intro p hp item hitem heq
          have hmem := List.mem_append.1 (List.mem_of_mem_take hp)
          have hno : ∀ x ∈ history.getD [], x.id.asString ≠ p.id := by
            rcases hmem with hm | hm
            · exact of_decide_eq_true (List.mem_filter.1 hm).2
            · exact of_decide_eq_true (List.mem_filter.1 hm).2
          exact hno item hitem heq.symm

/-- Witness of C4: a history naming `mug` by its key and `shirt` by the number 1005;
the recommendation keeps neither. -/
theorem recommend_excludes_history_witness :
    recommend (some sampleHistory) (.ok [mug, plainDoc]) (.ok ⟨some [shirt, watch]⟩)
        = .products [formatMongo plainDoc, formatDummy watch]
    ∧ ∀ p ∈ [formatMongo plainDoc, formatDummy watch], ∀ item ∈ sampleHistory,
        p.id ≠ item.id.asString :=
  ⟨by rfl, recommend_excludes_history (some sampleHistory) (.ok [mug, plainDoc])
    (.ok ⟨some [shirt, watch]⟩) [formatMongo plainDoc, formatDummy watch] (by rfl)⟩

/-- C5, as stated, fails: with an empty history and one store document, an external
response that has no products array is answered with the error 500, and so is a history
entry that has no id; in neither case is the answer the store document. -/
theorem recommend_fails_outside_contract :
    recommend (some []) (.ok [mug]) (.ok ⟨none⟩)
        = .error 500 "Failed to fetch recommendations"
    ∧ recommend (some [⟨.undefined⟩]) (.ok [mug]) (.ok ⟨some []⟩)
        = .error 500 "Failed to fetch recommendations"
    ∧ recommend (some []) (.ok [mug]) (.ok ⟨none⟩)
        ≠ .products
            [{ id := "abc123", name := .str "Mug", price := .int 10, image := .undefined,
               description := .undefined, category := .str "Kitchen", isMongo := true }] := by
  refine ⟨by rfl, by rfl, by decide⟩

/-- C5, amended: for a history none of whose ids is `undefined` or `null` and an external
response that carries a products array, the recommendation is the first ten entries of
the store products not in the history followed by the listed external products not in
the history; it has at most ten entries, no external product precedes a store product,
and an external product appears only if fewer than ten store products remain. -/
theorem recommend_first_ten (history : Option (List HistoryItem)) (docs : List LocalDoc)
    (items : List ExtItem)
    (hids : ∀ item ∈ history.getD [], item.id ≠ .undefined ∧ item.id ≠ .null) :
    recommend history (.ok docs) (.ok ⟨some items⟩)
        = .products ((expectedLocalRemainder (history.getD []) docs
            ++ expectedExternalRemainder (history.getD []) items).take 10)
    ∧ ((expectedLocalRemainder (history.getD []) docs
          ++ expectedExternalRemainder (history.getD []) items).take 10).length ≤ 10
    ∧ ((expectedLocalRemainder (history.getD []) docs
          ++ expectedExternalRemainder (history.getD []) items).take 10).Pairwise
        (fun a b => a.isMongo = false → b.isMongo = false)
    ∧ ((∃ p ∈ (expectedLocalRemainder (history.getD []) docs
          ++ expectedExternalRemainder (history.getD []) items).take 10, p.isMongo = false) →
        (expectedLocalRemainder (history.getD []) docs).length < 10) := by
  refine ⟨?_, ?_, ?_, ?_⟩
  · unfold recommend
    simp only [boughtIdsOf_of_defined _ hids]
    rw [filteredMongo_eq, filteredDummy_eq]
  · simp [List.length_take]
  · exact List.Pairwise.sublist (List.take_sublist _ _)
      (pairwise_local_first _ _ (expectedLocalRemainder_isMongo _ _)
        (expectedExternalRemainder_isMongo _ _))
  · rintro ⟨p, hp, hpm⟩
    by_contra hlen
    have hle : 10 ≤ (expectedLocalRemainder (history.getD []) docs).length := by omega
    rw [List.take_append_of_le_length hle] at hp
    have := expectedLocalRemainder_isMongo _ _ p (List.mem_of_mem_take hp)
    rw [hpm] at this
    exact Bool.noConfusion this

/-- Witness of C5 on the sample history, which names `mug` and the unified id of
`shirt`: the recommendation is the other store document followed by the other external
product, under the id `1007`. -/
theorem recommend_first_ten_witness :
    (∀ item ∈ sampleHistory, item.id ≠ .undefined ∧ item.id ≠ .null)
    ∧ recommend (some sampleHistory) (.ok [mug, plainDoc]) (.ok ⟨some [shirt, watch]⟩)
        = .products
            [{ id := "64b7f3a2c1d4e5f6a7b8c9d0", name := .str "Lamp", price := .int 25,
               image := .undefined, description := .undefined, category := .str "Others",
               isMongo := true },
             { id := "1007", name := .str "Watch", price := .int 90, image := .undefined,
               description := .undefined, category := .str "Accessories",
               isMongo := false }] :=
  ⟨sampleHistory_defined, (recommend_first_ten (some sampleHistory) [mug, plainDoc]
    [shirt, watch] sampleHistory_defined).1.trans (by decide)⟩

/-- C6, as stated, fails: with one document in the store and a failing external listing
call, the listing answers the error 500 and not the store products. -/
theorem listProducts_external_failure_is_error :
    listProducts none (.ok [mug]) .failed = .error 500 "Failed to fetch products"
    ∧ listProducts none (.ok [mug]) .failed ≠ .products [formatMongo mug] := by
  decide

/-- C6, amended: whatever the store content and the category, a failing external listing
call makes the listing answer the error 500 and no product list. -/
theorem listProducts_external_failure (category : Option String) (docs : List LocalDoc) :
    listProducts category (.ok docs) .failed = .error 500 "Failed to fetch products"
    ∧ ∀ ps, listProducts category (.ok docs) .failed ≠ .products ps :=
  ⟨rfl, fun _ h => Reply.noConfusion h⟩

/-- C7, as stated, fails: the native ids 5 and `5 + 2^-50` are distinct and both in
range, and both products are listed under the id `1005`, the sum with 1000 being
rounded. -/
theorem listProducts_rounded_ids_collide :
    ([shirt, nearShirt].map (fun p => p.id)).Nodup
    ∧ listProducts none (.ok []) (.ok ⟨some [shirt, nearShirt]⟩)
        = .products
            [{ id := "1005", name := .str "Shirt", price := .int 20, image := .undefined,
               description := .undefined, category := .str "Clothing", isMongo := false },
             { id := "1005", name := .str "Blouse", price := .int 21, image := .undefined,
               description := .undefined, category := .str "Clothing", isMongo := false }]
    ∧ ¬ (["1005", "1005"] : List String).Nodup := by
  refine ⟨by decide, by rfl, by decide⟩

/-- C7, amended: when the store keys are pairwise distinct and none is the decimal text
of a number from 1001 to 1100, and the native ids of the external listing are pairwise
distinct and are integers whenever they are numbers above 0 and at most 100, the listing
answers with products whose ids are pairwise distinct, for every category. -/
theorem listProducts_ids_distinct (category : Option String) (docs : List LocalDoc)
    (listing : ExtListing)
    (hkeys : (docs.map (fun d => d._id)).Nodup)
    (hfree : ∀ d ∈ docs, ∀ m : Int, 1001 ≤ m → m ≤ 1100 → d._id ≠ decimalText m)
    (hext : ((listing.products.getD []).map (fun p => p.id)).Nodup)
    (hint : ∀ p ∈ listing.products.getD [], ∀ k : Int, p.id = .num k → 0 < k →
      k ≤ 100 * unitsPerOne → ∃ n : Int, k = n * unitsPerOne) :
    ∃ ps, listProducts category (.ok docs) (.ok listing) = .products ps
      ∧ (ps.map (fun q => q.id)).Nodup := by
  have hA : (((storeFind (activeFilter category) docs).map formatMongo).map
      (fun q => q.id)).Nodup := by
    rw [List.map_map]
    exact List.Nodup.sublist (List.Sublist.map _ (storeFind_sublist _ docs)) hkeys
  have hB := dummyProducts_ids_nodup listing hext hint
  have hdisj : ∀ (l : List Product), l.Sublist (dummyProducts listing) →
      List.Disjoint (((storeFind (activeFilter category) docs).map formatMongo).map
        (fun q => q.id)) (l.map (fun q => q.id)) := by
    intro l hl k hk1 hk2
    obtain ⟨a, ha, rfl⟩ := List.mem_map.1 hk1
    obtain ⟨d, hd, rfl⟩ := List.mem_map.1 ha
    obtain ⟨b, hb, hbe⟩ := List.mem_map.1 hk2
    obtain ⟨m, h1, h2, hm⟩ := dummyProducts_id_range listing hint b (hl.subset hb)
    have hdocs : d ∈ docs := (storeFind_sublist _ docs).subset hd
    exact hfree d hdocs m h1 h2 (by rw [← hm, hbe]; rfl)
  unfold listProducts
  cases hf : activeFilter category with
  | none =>
    refine ⟨_, rfl, ?_⟩
    rw [List.map_append, List.nodup_append]
    rw [hf] at hA hdisj
    exact ⟨hA, hB, hdisj _ (List.Sublist.refl _)⟩
  | some c =>
    refine ⟨_, rfl, ?_⟩
    rw [List.map_append, List.nodup_append]
    rw [hf] at hA hdisj
    exact ⟨hA, List.Nodup.sublist (List.Sublist.map _ (List.filter_sublist _)) hB,
      hdisj _ (List.filter_sublist _)⟩

/-- Witness of C7: two store documents and the external products 5 and 7, no category;
the four ids of the answer are the two keys, `1005` and `1007`, and are distinct. -/
theorem listProducts_ids_distinct_witness :
    ∃ ps, listProducts none (.ok [mug, plainDoc]) (.ok ⟨some [shirt, watch]⟩) = .products ps
      ∧ ps.map (fun q => q.id) = ["abc123", "64b7f3a2c1d4e5f6a7b8c9d0", "1005", "1007"]
      ∧ (ps.map (fun q => q.id)).Nodup := by
  obtain ⟨ps, hps, hnd⟩ := listProducts_ids_distinct none [mug, plainDoc]
    ⟨some [shirt, watch]⟩ (by decide) sample_keys_free (by decide) sample_ids_integer
  refine ⟨ps, hps, ?_, hnd⟩
  have hval : listProducts none (.ok [mug, plainDoc]) (.ok ⟨some [shirt, watch]⟩)
      = .products [formatMongo mug, formatMongo plainDoc, formatDummy shirt,
          formatDummy watch] := by rfl
  rw [hval] at hps
  rw [← Reply.products.inj hps]
  rfl

/-- C8 at the request ids `1005abc`, ` 1005` and `1005.9`: each is answered with the
external product fetched under native id 5, and the id of the returned product is the
request text itself, not `1005`, the id the listing gives that product. -/
theorem getProduct_echoes_request_id :
    getProduct sampleBackend "1005abc"
        = ⟨.product { formatDummy shirt with id := "1005abc" }, [ExtCall.product 5]⟩
    ∧ getProduct sampleBackend " 1005"
        = ⟨.product { formatDummy shirt with id := " 1005" }, [ExtCall.product 5]⟩
    ∧ getProduct sampleBackend "1005.9"
        = ⟨.product { formatDummy shirt with id := "1005.9" }, [ExtCall.product 5]⟩
    ∧ (formatDummy shirt).id = "1005"
    ∧ decimalText (5 + 1000) = "1005"
    ∧ "1005abc" ≠ decimalText (5 + 1000) := by
  refine ⟨by rfl, by rfl, by rfl, by rfl, by rfl, by decide⟩

/-- C9 at the category `Others` with a store document that has no category: the
unfiltered listing returns it with category `Others`, yet the listing filtered by
`Others` leaves it out, while it keeps an external product that has no category. -/
theorem listProducts_others_drops_local :
    listProducts none (.ok [plainDoc]) (.ok ⟨some [bareItem]⟩)
        = .products [formatMongo plainDoc, formatDummy bareItem]
    ∧ [formatMongo plainDoc, formatDummy bareItem].filter
          (fun q => q.category == JsVal.str "Others")
        = [formatMongo plainDoc, formatDummy bareItem]
    ∧ listProducts (some "Others") (.ok [plainDoc]) (.ok ⟨some [bareItem]⟩)
        = .products [formatDummy bareItem] := by
  refine ⟨by rfl, by rfl, by rfl⟩

/-- C10 with an empty store and the external product 5: the frontend list holds the
product twice, once as the backend sent it with id `"1005"` and once as the frontend
mapped it with id `1005`, and the two ids have the same string form. -/
theorem frontend_lists_external_twice :
    fetchAllProductsAndCategories
        (listProducts none (.ok []) (.ok ⟨some [shirt]⟩)) (.ok ⟨some [shirt]⟩)
      = some [fromBackend (formatDummy shirt), frontDummy shirt]
    ∧ (fromBackend (formatDummy shirt)).id = .str "1005"
    ∧ (frontDummy shirt).id = .int 1005
    ∧ (fromBackend (formatDummy shirt)).id.asString = (frontDummy shirt).id.asString
    ∧ ¬ ([fromBackend (formatDummy shirt), frontDummy shirt].map
          (fun q => q.id.asString)).Nodup := by
  refine ⟨by rfl, by rfl, by rfl, by rfl, by decide⟩

end EcoMart
